import Mathlib

set_option maxRecDepth 4000

/-!
Shallow embedding of src/src/bot.ts (class EchoBot): the string-keyed question
and action tables, the two validators, the three flow functions fillOutRSVP,
fillOutFriend and cancelRSVP, and the onMessage dispatcher. The activity text
has TypeScript type string or undefined, modelled as Option String. Outbound
activities are collected in a list, in send order. The external number
recognizer is not part of this repository; its behaviour is modelled from the
spec where a concrete candidate list is needed, and the scanning code that
consumes the candidate list is translated from the source.
-/

namespace Bot

namespace question

def none : String := "NONE"

def age : String := "AGE"

def name : String := "NAME"

def school : String := "SCHOOL"

end question

namespace action

def none : String := "NONE"

def rsvp : String := "RSVP"

def cancel : String := "Cancel RSVP"

def friend : String := "Invite a friend"

end action

namespace friendQuestion

def none : String := "NONE"

def name : String := "NAME"

def email : String := "EMAIL"

end friendQuestion

namespace cancelQuestion

def none : String := "NONE"

def name : String := "NAME"

end cancelQuestion

/-- The conversation flow bag created at bot.ts 283-288: the three per-flow
question counters and the active action, all plain strings in the source. -/
structure Flow where
  lastQuestionAsked : String
  lastQuestionFriend : String
  lastQuestionCancel : String
  action : String
deriving DecidableEq

/-- The user profile bag: fields are absent until assigned, hence Option. The
friend name is stored under the misspelled firenName key, as in bot.ts 187. -/
structure Profile where
  name : Option String := Option.none
  age : Option Int := Option.none
  school : Option String := Option.none
  firenName : Option String := Option.none
  email : Option String := Option.none
  cancelName : Option String := Option.none
deriving DecidableEq

def emptyProfile : Profile := {}

/-- Shape of the object validateString returns: success with the string, or
failure with the re-prompt message. -/
inductive StrResult where
  | ok (string : String)
  | err (message : String)
deriving DecidableEq

/-- Shape of the object validateAge returns. -/
inductive AgeResult where
  | ok (age : Int)
  | err (message : String)
deriving DecidableEq

/-- JavaScript String.prototype.trim, written over the character list (rather
than through Substring positions) so that proofs can evaluate it: drop
whitespace from both ends. -/
def jsTrim (s : String) : String :=
  String.mk (((s.data.dropWhile Char.isWhitespace).reverse.dropWhile Char.isWhitespace).reverse)

/-- validateString from bot.ts 46-51. The expression input && input.trim() is
undefined exactly when input is undefined; for the empty string the conjunction
short-circuits to the empty string, which equals its own trim, so the value is
always the trimmed input on strings. The success test is string !== undefined,
hence every string input lands in the success branch. -/
def validateString (input : Option String) : StrResult :=
  match input.map jsTrim with
  | Option.some s => StrResult.ok s
  | Option.none => StrResult.err ("Please enter a name that contains at least one character.")

/-- One element of the list returned by recognizeNumber: result.resolution.value
in the source, which may be undefined. -/
structure Candidate where
  value : Option String
deriving DecidableEq

def digitsVal (ds : List Char) : Nat :=
  ds.foldl (fun acc c => acc * 10 + (c.toNat - 48)) 0

/-- JavaScript parseInt as used on the resolution strings at bot.ts 66: skip
leading whitespace, an optional sign, then read the longest prefix of decimal
digits; NaN (here Option.none) when that prefix is empty. -/
def parseIntJS (s : String) : Option Int :=
  let cs := s.data.dropWhile Char.isWhitespace
  let signed : Bool × List Char :=
    match cs with
    | '-' :: rest => (true, rest)
    | '+' :: rest => (false, rest)
    | _ => (false, cs)
  let ds := signed.2.takeWhile Char.isDigit
  if ds.isEmpty then Option.none
  else if signed.1 then Option.some (-(Int.ofNat (digitsVal ds)))
  else Option.some (Int.ofNat (digitsVal ds))

/-- One iteration of the forEach callback at bot.ts 62-72: a truthy value whose
parseInt lies in 18..120 overwrites output. The return statement inside the
callback exits only that callback invocation, so iteration continues over the
remaining candidates and a later qualifying candidate overwrites an earlier
one. -/
def scanStep (output : Option Int) (result : Candidate) : Option Int :=
  match result.value with
  | Option.some v =>
      if v ≠ "" then
        match parseIntJS v with
        | Option.some age => if 18 ≤ age ∧ age ≤ 120 then Option.some age else output
        | Option.none => output
      else output
  | Option.none => output

/-- The whole forEach loop over the candidate list, with output initially
undefined. -/
def scanCandidates (results : List Candidate) : Option Int :=
  results.foldl scanStep Option.none

def ageRangeMsg : String := "Please enter an age between 18 and 120."

def ageCatchMsg : String :=
  "I'm sorry, I could not interpret that as an age. Please enter an age between 18 and 120."

/-- validateAge from bot.ts 55-80, given the outcome of the recognizer call:
Except.error models the recognizer throwing (caught at bot.ts 74), Except.ok
its candidate list. The final return output || failure yields the range
re-prompt exactly when no candidate qualified. -/
def validateAgeWith (results : Except Unit (List Candidate)) : AgeResult :=
  match results with
  | Except.error _ => AgeResult.err ageCatchMsg
  | Except.ok rs =>
      match scanCandidates rs with
      | Option.some age => AgeResult.ok age
      | Option.none => AgeResult.err ageRangeMsg

/-- Modelled from the spec: recognizeNumber comes from the external package
recognizers-text-suite, whose code is not in this repository. Spec section 6
gives its interface (a list of candidate numeric resolutions, each exposing a
string value), section 4.1 says it handles digit and spelled-out forms, and
section 8 fixes the resolutions for "twelve" (12) and "twenty" (20). It is
modelled as recognizing each whitespace-separated token that is a digit string
or one of the spelled-out numbers the spec names, in order of occurrence. -/
def recognizeToken (t : String) : Option String :=
  if t ≠ "" ∧ t.data.all Char.isDigit then Option.some t
  else if t = "twelve" then Option.some ("12")
  else if t = "twenty" then Option.some ("20")
  else Option.none

/-- Split at single spaces, written with structural recursion so that proofs
can evaluate it. -/
def splitSpacesAux : List Char → List Char → List String
  | [], acc => [String.mk acc.reverse]
  | c :: rest, acc =>
      if c = ' ' then String.mk acc.reverse :: splitSpacesAux rest []
      else splitSpacesAux rest (c :: acc)

def splitSpaces (s : String) : List String := splitSpacesAux s.data []

def recognizeNumber (input : String) : List Candidate :=
  (splitSpaces input).filterMap fun t => (recognizeToken t).map fun v => { value := Option.some v }

/-- Modelled from the spec: a recognizer call on an undefined input throws
(spec section 7, RecognizerFailure); on a string it returns its candidates. -/
def recognizeNumberE (input : Option String) : Except Unit (List Candidate) :=
  match input with
  | Option.none => Except.error ()
  | Option.some s => Except.ok (recognizeNumber s)

/-- validateAge from bot.ts 55-80 on the raw activity text. -/
def validateAge (input : Option String) : AgeResult :=
  validateAgeWith (recognizeNumberE input)

/-- The attachment built by getInternetAttachment, bot.ts 248-255. -/
structure Attachment where
  name : String
  contentType : String
  contentUrl : String
deriving DecidableEq

/-- An outbound activity: a plain text message, a text message carrying an
attachment (bot.ts 153-156), or the hero card menu (bot.ts 82-96). -/
inductive Outbound where
  | text (s : String)
  | attachmentMsg (text : String) (a : Attachment)
  | heroCard (text : String) (buttons : List (String × String))
deriving DecidableEq

def getInternetAttachment : Attachment :=
  { name := "architecture-resize.png"
    contentType := "image/png"
    contentUrl := "https://docs.microsoft.com/en-us/bot-framework/media/how-it-works/architecture-resize.png" }

/-- sendHeroCard from bot.ts 82-96: one activity whose attachment is the hero
card with three ImBack buttons and the menu prompt. -/
def heroCardMsg : Outbound :=
  Outbound.heroCard ("What do you want to do ?")
    [("1. RSVP", action.rsvp), ("2. Cancel RSVP", action.cancel), ("3. Invite a friend", action.friend)]

/-- JavaScript template interpolation prints undefined for an absent field. -/
def showOptStr (o : Option String) : String :=
  match o with
  | Option.some s => s
  | Option.none => "undefined"

def showOptInt (o : Option Int) : String :=
  match o with
  | Option.some a => toString a
  | Option.none => "undefined"

/-- result.message || fallback at each failure branch: the fallback replaces a
falsy (empty) message. -/
def orFallback (m : String) : String :=
  if m = "" then "I'm sorry, I didn't understand that." else m

def stanfordMsg : String :=
  "I'm sorry, students from Stanford are not accepted. Nobody's perfect but it is still time to apply to Berkeley next year following this link: https://grad.berkeley.edu/admissions/apply/"

def docText : String :=
  "You can already take a look at the documentation here: https://docs.microsoft.com/en-us/azure/bot-service/bot-service-debug-emulator?view=azure-bot-service-4.0"

/-- fillOutRSVP from bot.ts 98-171: from the incoming flow, profile and
activity text to the flow, the profile as the caller observes it after the
call, and the sent activities in order. Property assignments such as
profile.name mutate the object the caller also holds; the statement
profile = empty-object in the completion branch only rebinds the local
parameter and the local is never read after it, so the caller-visible profile
keeps every field already assigned. -/
def fillOutRSVP (flow : Flow) (profile : Profile) (input : Option String) :
    Flow × Profile × List Outbound :=
  if flow.lastQuestionAsked = question.none then
    ({ flow with lastQuestionAsked := question.name }, profile,
      [Outbound.text ("In order to RSVP you need to give out some information. What is your name?")])
  else if flow.lastQuestionAsked = question.name then
    match validateString input with
    | StrResult.ok s =>
        let profile := { profile with name := Option.some s }
        ({ flow with lastQuestionAsked := question.age }, profile,
          [Outbound.text ("Welcome among us " ++ showOptStr profile.name ++ "."),
           Outbound.text ("How old are you?")])
    | StrResult.err m => (flow, profile, [Outbound.text (orFallback m)])
  else if flow.lastQuestionAsked = question.age then
    match validateAge input with
    | AgeResult.ok a =>
        let profile := { profile with age := Option.some a }
        ({ flow with lastQuestionAsked := question.school }, profile,
          [Outbound.text ("I have your age as " ++ showOptInt profile.age ++ "."),
           Outbound.text ("What university are you from?")])
    | AgeResult.err m => (flow, profile, [Outbound.text (orFallback m)])
  else if flow.lastQuestionAsked = question.school then
    match validateString input with
    | StrResult.ok s =>
        let profile := { profile with school := Option.some s }
        let msgs :=
          if profile.school = Option.some ("Stanford") then
            [Outbound.text stanfordMsg]
          else
            [Outbound.text ("Amazing, so many people coming from " ++ showOptStr profile.school ++ "."),
             Outbound.attachmentMsg docText getInternetAttachment,
             Outbound.text ("Thanks for completing the RSVP " ++ showOptStr profile.name ++ ".")]
        ({ flow with lastQuestionAsked := question.none, action := action.none },
          profile, msgs ++ [heroCardMsg])
    | StrResult.err m => (flow, profile, [Outbound.text (orFallback m)])
  else (flow, profile, [])

/-- fillOutFriend from bot.ts 173-216; the name question stores its value under
the misspelled firenName key, and the same remark about the profile rebinding
at completion applies as for fillOutRSVP. -/
def fillOutFriend (flow : Flow) (profile : Profile) (input : Option String) :
    Flow × Profile × List Outbound :=
  if flow.lastQuestionFriend = friendQuestion.none then
    ({ flow with lastQuestionFriend := friendQuestion.name }, profile,
      [Outbound.text ("What is the name of your friend?")])
  else if flow.lastQuestionFriend = friendQuestion.name then
    match validateString input with
    | StrResult.ok s =>
        ({ flow with lastQuestionFriend := friendQuestion.email },
          { profile with firenName := Option.some s },
          [Outbound.text ("Great! What is your email address?")])
    | StrResult.err m => (flow, profile, [Outbound.text (orFallback m)])
  else if flow.lastQuestionFriend = friendQuestion.email then
    match validateString input with
    | StrResult.ok s =>
        ({ flow with lastQuestionFriend := question.none, action := action.none },
          { profile with email := Option.some s },
          [Outbound.text ("Great, we'll have a lot of fun!"),
           Outbound.text ("An email to v-dalhay@microsoft.com has been sent. You'll receive a response by email within 24 hours."),
           heroCardMsg])
    | StrResult.err m => (flow, profile, [Outbound.text (orFallback m)])
  else (flow, profile, [])

/-- cancelRSVP from bot.ts 218-246; again the profile rebinding at completion
does not reach the caller. -/
def cancelRSVP (flow : Flow) (profile : Profile) (input : Option String) :
    Flow × Profile × List Outbound :=
  if flow.lastQuestionCancel = cancelQuestion.none then
    ({ flow with lastQuestionCancel := cancelQuestion.name }, profile,
      [Outbound.text ("What is your name to cancel your participation?")])
  else if flow.lastQuestionCancel = cancelQuestion.name then
    match validateString input with
    | StrResult.ok s =>
        ({ flow with lastQuestionCancel := question.none, action := action.none },
          { profile with cancelName := Option.some s },
          [Outbound.text ("Ok, let's cancel!"), heroCardMsg])
    | StrResult.err m => (flow, profile, [Outbound.text (orFallback m)])
  else (flow, profile, [])

def actionLabels : List String := [action.rsvp, action.cancel, action.friend]

def conflictMsg : String := "You need to finish the current action before doing another one!"

/-- The switch on flow.action at bot.ts 305-317: no case matches when no action
is active, and nothing is sent. -/
def dispatch (flow : Flow) (profile : Profile) (text : Option String) :
    Flow × Profile × List Outbound :=
  if flow.action = action.rsvp then fillOutRSVP flow profile text
  else if flow.action = action.cancel then cancelRSVP flow profile text
  else if flow.action = action.friend then fillOutFriend flow profile text
  else (flow, profile, [])

/-- The body of the onMessage handler, bot.ts 282-321: when the text is one of
the three action labels, either activate it (when none is active) or send the
conflict message and return before the switch; otherwise fall through to the
switch on the active action. actions.has(undefined) is false, so an undefined
text goes straight to the switch. -/
def onMessage (flow : Flow) (profile : Profile) (text : Option String) :
    Flow × Profile × List Outbound :=
  match text with
  | Option.some t =>
      if actionLabels.contains t then
        if flow.action = action.none then
          dispatch { flow with action := t } profile (Option.some t)
        else
          (flow, profile, [Outbound.text conflictMsg])
      else dispatch flow profile (Option.some t)
  | Option.none => dispatch flow profile Option.none

/-- The qualifying value of one candidate, as claim C10 words it: present when
the candidate has a truthy value whose parseInt lies in 18..120. -/
def candValue (c : Candidate) : Option Int :=
  match c.value with
  | Option.some v =>
      if v ≠ "" then
        match parseIntJS v with
        | Option.some age => if 18 ≤ age ∧ age ≤ 120 then Option.some age else Option.none
        | Option.none => Option.none
      else Option.none
  | Option.none => Option.none

/-- The qualifying value of the last qualifying candidate of the list: a later
candidate takes precedence over an earlier one. -/
def lastQualifying (results : List Candidate) : Option Int :=
  match results with
  | [] => Option.none
  | c :: rest =>
      match lastQualifying rest with
      | Option.some a => Option.some a
      | Option.none => candValue c

/-! Helper step lemmas: the value of each flow function at each concrete
question state, read off the corresponding switch case. -/

theorem fillOutRSVP_at_none (lf lc ac : String) (profile : Profile) (input : Option String) :
    fillOutRSVP ⟨question.none, lf, lc, ac⟩ profile input =
      (⟨question.name, lf, lc, ac⟩, profile,
        [Outbound.text ("In order to RSVP you need to give out some information. What is your name?")]) := rfl

theorem fillOutRSVP_at_name (lf lc ac : String) (profile : Profile) (input : Option String) :
    fillOutRSVP ⟨question.name, lf, lc, ac⟩ profile input =
      (match validateString input with
       | StrResult.ok s =>
           (⟨question.age, lf, lc, ac⟩, { profile with name := Option.some s },
             [Outbound.text ("Welcome among us " ++ showOptStr (Option.some s) ++ "."),
              Outbound.text ("How old are you?")])
       | StrResult.err m =>
           (⟨question.name, lf, lc, ac⟩, profile, [Outbound.text (orFallback m)])) := rfl

theorem fillOutRSVP_at_age (lf lc ac : String) (profile : Profile) (input : Option String) :
    fillOutRSVP ⟨question.age, lf, lc, ac⟩ profile input =
      (match validateAge input with
       | AgeResult.ok a =>
           (⟨question.school, lf, lc, ac⟩, { profile with age := Option.some a },
             [Outbound.text ("I have your age as " ++ showOptInt (Option.some a) ++ "."),
              Outbound.text ("What university are you from?")])
       | AgeResult.err m =>
           (⟨question.age, lf, lc, ac⟩, profile, [Outbound.text (orFallback m)])) := rfl

theorem fillOutRSVP_at_school (lf lc ac : String) (profile : Profile) (input : Option String) :
    fillOutRSVP ⟨question.school, lf, lc, ac⟩ profile input =
      (match validateString input with
       | StrResult.ok s =>
           (⟨question.none, lf, lc, action.none⟩, { profile with school := Option.some s },
             (if Option.some s = Option.some ("Stanford") then
                [Outbound.text stanfordMsg]
              else
                [Outbound.text ("Amazing, so many people coming from " ++ showOptStr (Option.some s) ++ "."),
                 Outbound.attachmentMsg docText getInternetAttachment,
                 Outbound.text ("Thanks for completing the RSVP " ++ showOptStr profile.name ++ ".")])
               ++ [heroCardMsg])
       | StrResult.err m =>
           (⟨question.school, lf, lc, ac⟩, profile, [Outbound.text (orFallback m)])) := rfl

theorem fillOutRSVP_at_other (lq lf lc ac : String) (profile : Profile) (input : Option String)
    (h0 : lq ≠ question.none) (h1 : lq ≠ question.name)
    (h2 : lq ≠ question.age) (h3 : lq ≠ question.school) :
    fillOutRSVP ⟨lq, lf, lc, ac⟩ profile input = (⟨lq, lf, lc, ac⟩, profile, []) := by
  show (if lq = question.none then _ else _) = _
  rw [if_neg h0, if_neg h1, if_neg h2, if_neg h3]

theorem fillOutFriend_at_none (la lc ac : String) (profile : Profile) (input : Option String) :
    fillOutFriend ⟨la, friendQuestion.none, lc, ac⟩ profile input =
      (⟨la, friendQuestion.name, lc, ac⟩, profile,
        [Outbound.text ("What is the name of your friend?")]) := rfl

theorem fillOutFriend_at_name (la lc ac : String) (profile : Profile) (input : Option String) :
    fillOutFriend ⟨la, friendQuestion.name, lc, ac⟩ profile input =
      (match validateString input with
       | StrResult.ok s =>
           (⟨la, friendQuestion.email, lc, ac⟩, { profile with firenName := Option.some s },
             [Outbound.text ("Great! What is your email address?")])
       | StrResult.err m =>
           (⟨la, friendQuestion.name, lc, ac⟩, profile, [Outbound.text (orFallback m)])) := rfl

theorem fillOutFriend_at_email (la lc ac : String) (profile : Profile) (input : Option String) :
    fillOutFriend ⟨la, friendQuestion.email, lc, ac⟩ profile input =
      (match validateString input with
       | StrResult.ok s =>
           (⟨la, question.none, lc, action.none⟩, { profile with email := Option.some s },
             [Outbound.text ("Great, we'll have a lot of fun!"),
              Outbound.text ("An email to v-dalhay@microsoft.com has been sent. You'll receive a response by email within 24 hours."),
              heroCardMsg])
       | StrResult.err m =>
           (⟨la, friendQuestion.email, lc, ac⟩, profile, [Outbound.text (orFallback m)])) := rfl

theorem fillOutFriend_at_other (la lf lc ac : String) (profile : Profile) (input : Option String)
    (h0 : lf ≠ friendQuestion.none) (h1 : lf ≠ friendQuestion.name) (h2 : lf ≠ friendQuestion.email) :
    fillOutFriend ⟨la, lf, lc, ac⟩ profile input = (⟨la, lf, lc, ac⟩, profile, []) := by
  show (if lf = friendQuestion.none then _ else _) = _
  rw [if_neg h0, if_neg h1, if_neg h2]

theorem cancelRSVP_at_none (la lf ac : String) (profile : Profile) (input : Option String) :
    cancelRSVP ⟨la, lf, cancelQuestion.none, ac⟩ profile input =
      (⟨la, lf, cancelQuestion.name, ac⟩, profile,
        [Outbound.text ("What is your name to cancel your participation?")]) := rfl

theorem cancelRSVP_at_name (la lf ac : String) (profile : Profile) (input : Option String) :
    cancelRSVP ⟨la, lf, cancelQuestion.name, ac⟩ profile input =
      (match validateString input with
       | StrResult.ok s =>
           (⟨la, lf, question.none, action.none⟩, { profile with cancelName := Option.some s },
             [Outbound.text ("Ok, let's cancel!"), heroCardMsg])
       | StrResult.err m =>
           (⟨la, lf, cancelQuestion.name, ac⟩, profile, [Outbound.text (orFallback m)])) := rfl

theorem cancelRSVP_at_other (la lf lc ac : String) (profile : Profile) (input : Option String)
    (h0 : lc ≠ cancelQuestion.none) (h1 : lc ≠ cancelQuestion.name) :
    cancelRSVP ⟨la, lf, lc, ac⟩ profile input = (⟨la, lf, lc, ac⟩, profile, []) := by
  show (if lc = cancelQuestion.none then _ else _) = _
  rw [if_neg h0, if_neg h1]

/-! Helper lemmas for the candidate scan. -/

theorem scanStep_eq (output : Option Int) (c : Candidate) :
    scanStep output c =
      match candValue c with
      | Option.some a => Option.some a
      | Option.none => output := by
  rcases c with ⟨v⟩
  cases v with
  | none => rfl
  | some s =>
    simp only [scanStep, candValue]
    by_cases h : s ≠ ""
    · rw [if_pos h, if_pos h]
      cases hp : parseIntJS s with
      | none => rfl
      | some a =>
        dsimp only
        by_cases hr : 18 ≤ a ∧ a ≤ 120
        · rw [if_pos hr, if_pos hr]
        · rw [if_neg hr, if_neg hr]
    · rw [if_neg h, if_neg h]

theorem scan_aux (l : List Candidate) :
    ∀ init : Option Int,
      l.foldl scanStep init =
        match lastQualifying l with
        | Option.some a => Option.some a
        | Option.none => init := by
  induction l with
  | nil => intro init; rfl
  | cons c t ih =>
    intro init
    rw [List.foldl_cons, ih (scanStep init c), scanStep_eq]
    show _ = (match lastQualifying (c :: t) with
      | Option.some a => Option.some a
      | Option.none => init)
    simp only [lastQualifying]
    cases lastQualifying t <;> cases candValue c <;> rfl

/-! Concrete states used by the claim evaluations and witnesses. -/

def schoolFlow : Flow :=
  { lastQuestionAsked := question.school
    lastQuestionFriend := friendQuestion.none
    lastQuestionCancel := cancelQuestion.none
    action := action.rsvp }

def aliceProfile : Profile := { name := Option.some ("Alice"), age := Option.some 25 }

def emailFlow : Flow :=
  { lastQuestionAsked := question.none
    lastQuestionFriend := friendQuestion.email
    lastQuestionCancel := cancelQuestion.none
    action := action.friend }

def bobProfile : Profile := { firenName := Option.some ("Bob") }

def cancelNameFlow : Flow :=
  { lastQuestionAsked := question.none
    lastQuestionFriend := friendQuestion.none
    lastQuestionCancel := cancelQuestion.name
    action := action.cancel }

def busyFlow : Flow :=
  { lastQuestionAsked := question.name
    lastQuestionFriend := friendQuestion.none
    lastQuestionCancel := cancelQuestion.none
    action := action.rsvp }

def ageFlow : Flow :=
  { lastQuestionAsked := question.age
    lastQuestionFriend := friendQuestion.none
    lastQuestionCancel := cancelQuestion.none
    action := action.rsvp }

/-- Claim C1: evaluation at the completing turns. After each flow answers its
final question successfully and the flow state returns to none, the profile the
caller observes is NOT empty: every collected field is still present, in the
RSVP acceptance branch, the RSVP Stanford rejection branch, the friend-invite
completion and the cancel completion alike, because the clearing statement only
rebinds the local parameter. -/
theorem profile_not_cleared_on_completion :
    ((fillOutRSVP schoolFlow aliceProfile (Option.some ("MIT"))).1.lastQuestionAsked = question.none ∧
      (fillOutRSVP schoolFlow aliceProfile (Option.some ("MIT"))).1.action = action.none ∧
      (fillOutRSVP schoolFlow aliceProfile (Option.some ("MIT"))).2.1 =
        { name := Option.some ("Alice"), age := Option.some 25, school := Option.some ("MIT") } ∧
      (fillOutRSVP schoolFlow aliceProfile (Option.some ("MIT"))).2.1 ≠ emptyProfile) ∧
    ((fillOutRSVP schoolFlow aliceProfile (Option.some ("Stanford"))).1.lastQuestionAsked = question.none ∧
      (fillOutRSVP schoolFlow aliceProfile (Option.some ("Stanford"))).1.action = action.none ∧
      (fillOutRSVP schoolFlow aliceProfile (Option.some ("Stanford"))).2.1 ≠ emptyProfile) ∧
    ((fillOutFriend emailFlow bobProfile (Option.some ("bob@x.com"))).1.lastQuestionFriend = question.none ∧
      (fillOutFriend emailFlow bobProfile (Option.some ("bob@x.com"))).1.action = action.none ∧
      (fillOutFriend emailFlow bobProfile (Option.some ("bob@x.com"))).2.1 ≠ emptyProfile) ∧
    ((cancelRSVP cancelNameFlow emptyProfile (Option.some ("Alice"))).1.lastQuestionCancel = question.none ∧
      (cancelRSVP cancelNameFlow emptyProfile (Option.some ("Alice"))).1.action = action.none ∧
      (cancelRSVP cancelNameFlow emptyProfile (Option.some ("Alice"))).2.1 ≠ emptyProfile) := by
  decide

/-- Claim C2: evaluation at the failing inputs. The text validator accepts the
empty and the whitespace-only input (success with the empty trimmed string)
instead of failing, and returns the trimmed string on ordinary input. -/
theorem validateString_accepts_empty :
    validateString (Option.some ("")) = StrResult.ok ("") ∧
    validateString (Option.some ("   ")) = StrResult.ok ("") ∧
    validateString (Option.some ("  Alice ")) = StrResult.ok ("Alice") := by decide

/-- Claim C3: evaluation at the failing input. With two qualifying candidates
(values 20 and 30) the scan returns the last one, 30, even though the first
qualifying candidate is 20: the return inside the forEach callback does not
stop the iteration. The spec examples with a single candidate do hold. -/
theorem validateAge_returns_last_not_first :
    validateAgeWith (Except.ok [{ value := Option.some ("20") }, { value := Option.some ("30") }]) =
      AgeResult.ok 30 ∧
    candValue ({ value := Option.some ("20") }) = Option.some 20 ∧
    validateAge (Option.some ("20 30")) = AgeResult.ok 30 ∧
    validateAge (Option.some ("17")) = AgeResult.err ageRangeMsg ∧
    validateAge (Option.some ("18")) = AgeResult.ok 18 ∧
    validateAge (Option.some ("120")) = AgeResult.ok 120 ∧
    validateAge (Option.some ("121")) = AgeResult.err ageRangeMsg ∧
    validateAge (Option.some ("twelve")) = AgeResult.err ageRangeMsg ∧
    validateAge (Option.some ("twenty")) = AgeResult.ok 20 := by decide

/-- Claim C4: a recognized action label arriving while an action is already
active yields exactly the conflict message, leaves the flow counters, the
active action and the profile untouched, and the flow controller does not run
on that input. -/
theorem onMessage_conflict (flow : Flow) (profile : Profile) (t : String)
    (hlabel : actionLabels.contains t = true) (hbusy : flow.action ≠ action.none) :
    onMessage flow profile (Option.some t) = (flow, profile, [Outbound.text conflictMsg]) := by
  show (if actionLabels.contains t = true then
          if flow.action = action.none then dispatch { flow with action := t } profile (Option.some t)
          else (flow, profile, [Outbound.text conflictMsg])
        else dispatch flow profile (Option.some t)) = _
  rw [if_pos hlabel, if_neg hbusy]

/-- Witness for C4: the Cancel RSVP label arriving while the RSVP action is
active at the name question. -/
theorem onMessage_conflict_witness :
    onMessage busyFlow emptyProfile (Option.some ("Cancel RSVP")) =
      (busyFlow, emptyProfile, [Outbound.text conflictMsg]) :=
  onMessage_conflict busyFlow emptyProfile ("Cancel RSVP") (by decide) (by decide)

/-- Claim C5: at the school question with a string answer, the Stanford branch
sends exactly the one rejection message while the acceptance text, the
documentation attachment and the completion message are skipped; the other
branch sends those three; both branches reset the question and the action to
none and re-present the hero card menu. -/
theorem fillOutRSVP_school_branches (flow : Flow) (profile : Profile) (s : String)
    (hq : flow.lastQuestionAsked = question.school) :
    fillOutRSVP flow profile (Option.some s) =
      ({ flow with lastQuestionAsked := question.none, action := action.none },
        { profile with school := Option.some (jsTrim s) },
        (if jsTrim s = "Stanford" then
            [Outbound.text stanfordMsg]
          else
            [Outbound.text ("Amazing, so many people coming from " ++ jsTrim s ++ "."),
             Outbound.attachmentMsg docText getInternetAttachment,
             Outbound.text ("Thanks for completing the RSVP " ++ showOptStr profile.name ++ ".")])
          ++ [heroCardMsg]) := by
  rcases flow with ⟨lq, lf, lc, ac⟩
  dsimp only at hq
  subst hq
  rw [fillOutRSVP_at_school]
  have hval : validateString (Option.some s) = StrResult.ok (jsTrim s) := rfl
  rw [hval]
  dsimp only
  simp only [Option.some.injEq, showOptStr]

/-- Witness for C5: the blocked school itself, at a filled profile. -/
theorem fillOutRSVP_school_branches_witness :
    fillOutRSVP schoolFlow aliceProfile (Option.some ("Stanford")) =
      ({ schoolFlow with lastQuestionAsked := question.none, action := action.none },
        { aliceProfile with school := Option.some (jsTrim ("Stanford")) },
        (if jsTrim ("Stanford") = "Stanford" then
            [Outbound.text stanfordMsg]
          else
            [Outbound.text ("Amazing, so many people coming from " ++ jsTrim ("Stanford") ++ "."),
             Outbound.attachmentMsg docText getInternetAttachment,
             Outbound.text ("Thanks for completing the RSVP " ++ showOptStr aliceProfile.name ++ ".")])
          ++ [heroCardMsg]) :=
  fillOutRSVP_school_branches schoolFlow aliceProfile ("Stanford") rfl

/-- Claim C6, counterexample: both outcomes are failures, but the message
produced when the recognizer throws is a different string from the message
produced when no candidate qualifies, so the two are distinguishable. -/
theorem ageCatch_message_differs :
    validateAgeWith (Except.error ()) = AgeResult.err ageCatchMsg ∧
    validateAgeWith (Except.ok []) = AgeResult.err ageRangeMsg ∧
    ageCatchMsg ≠ ageRangeMsg := by decide

/-- Claim C6 as amended: a recognizer exception is caught and converted to a
failure result, never propagated (the validator is total and always returns an
AgeResult), but its message is the fixed catch message, which is not the
no-valid-candidate message. -/
theorem validateAge_error_caught :
    validateAgeWith (Except.error ()) = AgeResult.err ageCatchMsg ∧
    validateAge Option.none = AgeResult.err ageCatchMsg ∧
    validateAgeWith (Except.error ()) ≠ AgeResult.err ageRangeMsg := by decide

/-- Claim C7: at every question of every flow, an input whose validation fails
leaves the question counters, the active action and the profile exactly as they
were and sends only the re-prompt message; since the state is unchanged and the
step is a pure function of state and input, repeating the same invalid input
produces the identical state and the identical outbound message every time. -/
theorem reprompt_leaves_state (flow : Flow) (profile : Profile) (input : Option String) (m : String) :
    ((flow.lastQuestionAsked = question.name → validateString input = StrResult.err m →
        fillOutRSVP flow profile input = (flow, profile, [Outbound.text (orFallback m)])) ∧
     (flow.lastQuestionAsked = question.age → validateAge input = AgeResult.err m →
        fillOutRSVP flow profile input = (flow, profile, [Outbound.text (orFallback m)])) ∧
     (flow.lastQuestionAsked = question.school → validateString input = StrResult.err m →
        fillOutRSVP flow profile input = (flow, profile, [Outbound.text (orFallback m)]))) ∧
    ((flow.lastQuestionFriend = friendQuestion.name → validateString input = StrResult.err m →
        fillOutFriend flow profile input = (flow, profile, [Outbound.text (orFallback m)])) ∧
     (flow.lastQuestionFriend = friendQuestion.email → validateString input = StrResult.err m →
        fillOutFriend flow profile input = (flow, profile, [Outbound.text (orFallback m)]))) ∧
    (flow.lastQuestionCancel = cancelQuestion.name → validateString input = StrResult.err m →
        cancelRSVP flow profile input = (flow, profile, [Outbound.text (orFallback m)])) := by
  rcases flow with ⟨lq, lf, lc, ac⟩
  refine ⟨⟨?_, ?_, ?_⟩, ⟨?_, ?_⟩, ?_⟩ <;> intro hq hv <;> dsimp only at hq <;> subst hq
  · rw [fillOutRSVP_at_name, hv]
  · rw [fillOutRSVP_at_age, hv]
  · rw [fillOutRSVP_at_school, hv]
  · rw [fillOutFriend_at_name, hv]
  · rw [fillOutFriend_at_email, hv]
  · rw [cancelRSVP_at_name, hv]

/-- Witness for C7: the age question re-prompted on the too-small input 17. -/
theorem reprompt_leaves_state_witness :
    fillOutRSVP ageFlow emptyProfile (Option.some ("17")) =
      (ageFlow, emptyProfile, [Outbound.text (orFallback ageRangeMsg)]) :=
  (reprompt_leaves_state ageFlow emptyProfile (Option.some ("17")) ageRangeMsg).1.2.1
    rfl (by decide)

/-- Claim C8: on every turn of every flow, the caller-visible profile is either
unchanged, or, only when the current question validated successfully, exactly
the one field belonging to that question is set; in particular no field is
written on a validation-failure turn or on the question-asking (state none)
turn. -/
theorem profile_written_only_on_success (flow : Flow) (profile : Profile) (input : Option String) :
    ((fillOutRSVP flow profile input).2.1 = profile ∨
      (∃ s, validateString input = StrResult.ok s ∧ flow.lastQuestionAsked = question.name ∧
        (fillOutRSVP flow profile input).2.1 = { profile with name := Option.some s }) ∨
      (∃ a, validateAge input = AgeResult.ok a ∧ flow.lastQuestionAsked = question.age ∧
        (fillOutRSVP flow profile input).2.1 = { profile with age := Option.some a }) ∨
      (∃ s, validateString input = StrResult.ok s ∧ flow.lastQuestionAsked = question.school ∧
        (fillOutRSVP flow profile input).2.1 = { profile with school := Option.some s })) ∧
    ((fillOutFriend flow profile input).2.1 = profile ∨
      (∃ s, validateString input = StrResult.ok s ∧ flow.lastQuestionFriend = friendQuestion.name ∧
        (fillOutFriend flow profile input).2.1 = { profile with firenName := Option.some s }) ∨
      (∃ s, validateString input = StrResult.ok s ∧ flow.lastQuestionFriend = friendQuestion.email ∧
        (fillOutFriend flow profile input).2.1 = { profile with email := Option.some s })) ∧
    ((cancelRSVP flow profile input).2.1 = profile ∨
      (∃ s, validateString input = StrResult.ok s ∧ flow.lastQuestionCancel = cancelQuestion.name ∧
        (cancelRSVP flow profile input).2.1 = { profile with cancelName := Option.some s })) := by
  rcases flow with ⟨lq, lf, lc, ac⟩
  refine ⟨?_, ?_, ?_⟩
  · by_cases h0 : lq = question.none
    · subst h0; left; rw [fillOutRSVP_at_none]
    · by_cases h1 : lq = question.name
      · subst h1
        rw [fillOutRSVP_at_name]
        cases hv : validateString input with
        | ok s => exact Or.inr (Or.inl ⟨s, rfl, rfl, rfl⟩)
        | err m => left; rfl
      · by_cases h2 : lq = question.age
        · subst h2
          rw [fillOutRSVP_at_age]
          cases hv : validateAge input with
          | ok a => exact Or.inr (Or.inr (Or.inl ⟨a, rfl, rfl, rfl⟩))
          | err m => left; rfl
        · by_cases h3 : lq = question.school
          · subst h3
            rw [fillOutRSVP_at_school]
            cases hv : validateString input with
            | ok s => exact Or.inr (Or.inr (Or.inr ⟨s, rfl, rfl, rfl⟩))
            | err m => left; rfl
          · left; rw [fillOutRSVP_at_other lq lf lc ac profile input h0 h1 h2 h3]
  · by_cases h0 : lf = friendQuestion.none
    · subst h0; left; rw [fillOutFriend_at_none]
    · by_cases h1 : lf = friendQuestion.name
      · subst h1
        rw [fillOutFriend_at_name]
        cases hv : validateString input with
        | ok s => exact Or.inr (Or.inl ⟨s, rfl, rfl, rfl⟩)
        | err m => left; rfl
      · by_cases h2 : lf = friendQuestion.email
        · subst h2
          rw [fillOutFriend_at_email]
          cases hv : validateString input with
          | ok s => exact Or.inr (Or.inr ⟨s, rfl, rfl, rfl⟩)
          | err m => left; rfl
        · left; rw [fillOutFriend_at_other lq lf lc ac profile input h0 h1 h2]
  · by_cases h0 : lc = cancelQuestion.none
    · subst h0; left; rw [cancelRSVP_at_none]
    · by_cases h1 : lc = cancelQuestion.name
      · subst h1
        rw [cancelRSVP_at_name]
        cases hv : validateString input with
        | ok s => exact Or.inr ⟨s, rfl, rfl, rfl⟩
        | err m => left; rfl
      · left; rw [cancelRSVP_at_other lq lf lc ac profile input h0 h1]

/-- Claim C9: on every actual string input, including the empty and the
whitespace-only string, validateString succeeds with the (possibly empty)
trimmed string; the failure branch is reached exactly on the undefined input,
so for string inputs the re-prompt branch of every text question is dead. -/
theorem validateString_total_on_strings (s : String) :
    validateString (Option.some s) = StrResult.ok (jsTrim s) ∧
    validateString Option.none =
      StrResult.err ("Please enter a name that contains at least one character.") :=
  ⟨rfl, rfl⟩

/-- Claim C10: the candidate scan visits every element of the recognizer list
and each qualifying candidate overwrites the recorded result, so validateAge
returns the value of the last qualifying candidate (and the range re-prompt
when there is none). -/
theorem validateAge_last_qualifying (results : List Candidate) :
    validateAgeWith (Except.ok results) =
      match lastQualifying results with
      | Option.some a => AgeResult.ok a
      | Option.none => AgeResult.err ageRangeMsg := by
  show (match scanCandidates results with
        | Option.some age => AgeResult.ok age
        | Option.none => AgeResult.err ageRangeMsg) =
      (match lastQualifying results with
        | Option.some a => AgeResult.ok a
        | Option.none => AgeResult.err ageRangeMsg)
  rw [scanCandidates, scan_aux results Option.none]
  cases lastQualifying results <;> rfl

end Bot
